import Mathlib

/-!
Verification development for the conditions-agent repository.

Shallow embedding of the pieces of the code base that the specification
speaks about:

* `src/utils/transformers.py` - the pure transform layer,
* `src/utils/guardrails.py` - the guardrails validator,
* `src/agent/nodes.py` and `src/agent/graph.py` - the linear
  classify-and-route LangGraph workflow (nodes, router, graph runner),
* `src/agent/rewoo_agent.py` - the ReWOO planner with its deterministic
  fallback plan.

Python dictionaries become Lean structures whose optional keys are `Option`
fields (`none` models an absent key, `dict.get(k, d)` becomes `getD`).
Python floats (confidences, costs) are modelled as rationals.  Remote calls
and the clock are passed in explicitly as oracle values, so every function
is executable.  Python exceptions are modelled with `Except String`.
-/

/-- Python `dict` merge of one returned LangGraph delta into the running
state, per key: a key provided by the delta overwrites, an absent key keeps
the old value. -/
def mergeOpt {α : Type} (d s : Option α) : Option α :=
  match d with
  | some v => some v
  | none => s

@[simp] theorem mergeOpt_some {α : Type} (v : α) (s : Option α) :
    mergeOpt (some v) s = some v := rfl

@[simp] theorem mergeOpt_none {α : Type} (s : Option α) :
    mergeOpt none s = s := rfl

/-! ## Transform layer (`src/utils/transformers.py`) -/

/-- `analysis_metadata` sub-dictionary of a processed condition, as read by
`format_condition_for_frontend` (transformers.py lines 274-304). -/
structure AnalysisMetadata where
  resultConfidence : Option ℚ := none
  modelUsed : Option String := none
  tokensUsed : Option (List (String × Nat)) := none
  costUsd : Option ℚ := none
  latencyMs : Option Nat := none
deriving Repr, DecidableEq, Inhabited

/-- One entry of `processed_conditions` in the Conditions AI output, with
the keys the source reads (`extract_fulfilled_and_not_fulfilled` and
`format_condition_for_frontend`).  `none` models an absent key. -/
structure ProcessedCondition where
  conditionId : Option String := none
  title : Option String := none
  description : Option String := none
  category : Option String := none
  documentStatus : Option String := none
  documentAnalysis : Option String := none
  documentAnalysisThinking : Option String := none
  resultDocumentId : Option String := none
  isRelevant : Option Bool := none
  analysisMetadata : Option AnalysisMetadata := none
deriving Repr, DecidableEq, Inhabited

/-- Conditions AI (Airflow) output dictionary, with the keys read by the
transform layer and the agent nodes. `workflow_info` and
`api_usage_summary` payloads are carried through opaquely below. -/
structure CondAnalysisUsage where
  totalTokens : Option Nat := none
  totalCostUsd : Option ℚ := none
  totalLatencyMs : Option Nat := none
  avgLatencyMs : Option Nat := none
deriving Repr, DecidableEq, Inhabited

/-- `api_usage_summary` dictionary: only its `condition_analysis` entry is
ever read by the code under verification. -/
structure ApiUsageSummary where
  conditionAnalysis : Option CondAnalysisUsage := none
deriving Repr, DecidableEq, Inhabited

/-- `workflow_info` is passed through by `store_results_node` without being
inspected; model it as an uninterpreted string payload. -/
structure WorkflowInfo where
  payload : String := ""
deriving Repr, DecidableEq, Inhabited

/-- Output fetched from S3 after the Conditions AI DAG run
(`conditions_s3_output` in transformers.py, `conditions_ai_output` in
nodes.py). -/
structure ConditionsAIOutput where
  processingStatus : Option String := none
  processedConditions : Option (List ProcessedCondition) := none
  apiUsageSummary : Option ApiUsageSummary := none
  workflowInfo : Option WorkflowInfo := none
  message : Option String := none
deriving Repr, DecidableEq, Inhabited

/-- Lowered `document_status` of a condition:
`cond.get('document_status', '').lower()` (transformers.py line 242). -/
def documentStatusLower (c : ProcessedCondition) : String :=
  (c.documentStatus.getD "").toLower

/-- The loop body of `extract_fulfilled_and_not_fulfilled`
(transformers.py lines 241-250), appending each condition to the fulfilled
or the not-fulfilled list.  The `elif` branch for the three
"not fulfilled" synonyms and the final `else` branch (uncertain or other
status) both append to the not-fulfilled list, exactly as in the source. -/
def classifyConditions : List ProcessedCondition →
    List ProcessedCondition × List ProcessedCondition
  | [] => ([], [])
  | c :: rest =>
    let (fulfilled, notFulfilled) := classifyConditions rest
    if documentStatusLower c = "fulfilled" then
      (c :: fulfilled, notFulfilled)
    else if documentStatusLower c = "not fulfilled" ∨
        documentStatusLower c = "not_fulfilled" ∨
        documentStatusLower c = "unfulfilled" then
      (fulfilled, c :: notFulfilled)
    else
      (fulfilled, c :: notFulfilled)

/-- `extract_fulfilled_and_not_fulfilled` (transformers.py lines 221-257):
reads `processed_conditions` (default `[]`) and separates fulfilled from
not fulfilled conditions. -/
def extractFulfilledAndNotFulfilled (conditionsS3Output : ConditionsAIOutput) :
    List ProcessedCondition × List ProcessedCondition :=
  classifyConditions (conditionsS3Output.processedConditions.getD [])

/-- Frontend display record returned by `format_condition_for_frontend`
(transformers.py lines 285-304).  The nested `citations` dictionary is
flattened into its two keys. -/
structure FrontendCondition where
  conditionId : Option String
  title : Option String
  description : Option String
  category : Option String
  status : String
  documentStatus : Option String
  confidence : ℚ
  confidenceColor : String
  aiReasoning : String
  aiThinking : String
  citationsDocumentId : Option String
  citationsIsRelevant : Option Bool
  modelUsed : Option String
  tokensUsed : List (String × Nat)
  costUsd : ℚ
  latencyMs : Nat
deriving Repr, DecidableEq, Inhabited

/-- Confidence read by the frontend formatter:
`condition.get('analysis_metadata', {}).get('result_confidence', 0.0)`. -/
def conditionConfidence (condition : ProcessedCondition) : ℚ :=
  ((condition.analysisMetadata.getD {}).resultConfidence.getD 0)

/-- `format_condition_for_frontend` (transformers.py lines 260-304),
including the fixed confidence-tier thresholds 0.8 and 0.5. -/
def formatConditionForFrontend (condition : ProcessedCondition)
    (isFulfilled : Bool) : FrontendCondition :=
  let analysisMetadata := condition.analysisMetadata.getD {}
  let confidence := analysisMetadata.resultConfidence.getD 0
  let confidenceColor :=
    if confidence ≥ 8/10 then "green"
    else if confidence ≥ 5/10 then "yellow"
    else "red"
  { conditionId := condition.conditionId
    title := condition.title
    description := condition.description
    category := condition.category
    status := if isFulfilled then "fulfilled" else "not_fulfilled"
    documentStatus := condition.documentStatus
    confidence := confidence
    confidenceColor := confidenceColor
    aiReasoning := condition.documentAnalysis.getD ""
    aiThinking := condition.documentAnalysisThinking.getD ""
    citationsDocumentId := condition.resultDocumentId
    citationsIsRelevant := condition.isRelevant
    modelUsed := analysisMetadata.modelUsed
    tokensUsed := analysisMetadata.tokensUsed.getD []
    costUsd := analysisMetadata.costUsd.getD 0
    latencyMs := analysisMetadata.latencyMs.getD 0 }

/-! ### S3 path parsing (transformers.py lines 89-103 and 180-195) -/

/-- The characters of the `s3://` URI scheme marker. -/
def s3SchemeChars : List Char := ['s', '3', ':', '/', '/']

/-- `l` starts with the five characters `s3://`
(Python `s3_pdf_path.startswith('s3://')`). -/
def startsWithS3Scheme (l : List Char) : Bool :=
  l.take 5 = s3SchemeChars

/-- Python `s.split('/', 1)` restricted to the case used by the source:
returns the parts before and after the first `/`, or `none` when the
string contains no `/` (in which case Python returns a one-element list
and the source raises). -/
def splitFirstSlash : List Char → Option (List Char × List Char)
  | [] => none
  | c :: rest =>
    if c = '/' then some ([], rest)
    else
      match splitFirstSlash rest with
      | none => none
      | some (before, after) => some (c :: before, after)

/-- S3 path parsing of `transform_preconditions_to_conditions_ai`
(transformers.py lines 89-103), on character lists: a `s3://`-prefixed
path is stripped and split on the first `/`; otherwise a path containing
`/` is split the same way; anything else raises `ValueError`. -/
def parseS3PathPreChars (l : List Char) :
    Except String (List Char × List Char) :=
  if startsWithS3Scheme l then
    match splitFirstSlash (l.drop 5) with
    | some (bucket, key) => .ok (bucket, key)
    | none => .error ("Invalid S3 path format: " ++ l.asString)
  else
    match splitFirstSlash l with
    | some (bucket, key) => .ok (bucket, key)
    | none =>
      .error ("Invalid S3 path format: " ++ l.asString ++
        ". Expected s3://bucket/key or bucket/key")

/-- S3 path parsing of `transform_metadata_to_conditions_ai`
(transformers.py lines 183-195): strip an optional `s3://` prefix, then
split on the first `/`, raising `ValueError` when no `/` is present. -/
def parseS3PathMetaChars (l : List Char) :
    Except String (List Char × List Char) :=
  let stripped := if startsWithS3Scheme l then l.drop 5 else l
  match splitFirstSlash stripped with
  | some (bucket, key) => .ok (bucket, key)
  | none => .error ("Invalid S3 path format: " ++ stripped.asString)

/-- String wrapper for `parseS3PathPreChars`. -/
def parseS3PathPre (s : String) : Except String (String × String) :=
  (parseS3PathPreChars s.toList).map (fun p => (p.1.asString, p.2.asString))

/-- String wrapper for `parseS3PathMetaChars`. -/
def parseS3PathMeta (s : String) : Except String (String × String) :=
  (parseS3PathMetaChars s.toList).map (fun p => (p.1.asString, p.2.asString))

/-! ### Prediction output to evaluation input -/

/-- `original_deficiency` sub-dictionary of a scored deficiency. -/
structure OriginalDeficiency where
  actionableInstruction : Option String := none
deriving Repr, DecidableEq, Inhabited

/-- One deficient condition from the PreConditions output (either a
`final_results.top_n` entry or a raw `deficient_conditions` entry), with
the keys read by `transform_preconditions_to_conditions_ai`. -/
structure Deficiency where
  conditionId : Option String := none
  actionableInstruction : Option String := none
  originalDeficiency : Option OriginalDeficiency := none
  conditionName : Option String := none
deriving Repr, DecidableEq, Inhabited

/-- `final_results` dictionary of the PreConditions output. -/
structure FinalResultsShape where
  topN : Option (List Deficiency) := none
deriving Repr, DecidableEq, Inhabited

/-- PreConditions API output (`cloud_output` in transformers.py). -/
structure PreconditionsOutput where
  compartments : Option (List String) := none
  finalResults : Option FinalResultsShape := none
  deficientConditions : Option (List Deficiency) := none
deriving Repr, DecidableEq, Inhabited

/-- Inner `data` dictionary of one Airflow condition. -/
structure AirflowConditionData where
  titleField : String
  categoryField : String
  descriptionField : String
deriving Repr, DecidableEq, Inhabited

/-- Inner `condition` dictionary of one Airflow condition entry. -/
structure AirflowConditionInner where
  id : Nat
  name : String
  data : AirflowConditionData
deriving Repr, DecidableEq, Inhabited

/-- One entry of the `conditions` list sent to the Airflow DAG. -/
structure AirflowCondition where
  condition : AirflowConditionInner
deriving Repr, DecidableEq, Inhabited

/-- One parsed `{bucket, key}` document location. -/
structure S3Location where
  bucket : String
  key : String
deriving Repr, DecidableEq, Inhabited

/-- The `conf` payload of the Airflow v5 input. -/
structure AirflowConf where
  conditions : List AirflowCondition
  s3PdfPaths : List S3Location
  outputDestination : String
deriving Repr, DecidableEq, Inhabited

/-- Airflow v5 input (`airflow_input` in transformers.py). -/
structure AirflowInput where
  conf : AirflowConf
deriving Repr, DecidableEq, Inhabited

/-- Deficiencies chosen by `transform_preconditions_to_conditions_ai`
(transformers.py lines 48-56): `final_results.top_n` is preferred when
non-empty (Python truthiness of the list), otherwise the raw
`deficient_conditions` list (default `[]`). -/
def chosenDeficiencies (cloudOutput : PreconditionsOutput) : List Deficiency :=
  let topN := ((cloudOutput.finalResults.getD {}).topN.getD [])
  if topN ≠ [] then topN else cloudOutput.deficientConditions.getD []

/-- Per-condition body of the transform loop (transformers.py lines
60-87): resolve the condition id and actionable instruction through the
fallback chain (direct field, then `original_deficiency`, then
`condition_name` which itself defaults to the condition id), and build
the Airflow condition entry for the 1-based index `idx`. -/
def buildAirflowCondition (combinedCategory : String) (idx : Nat)
    (cond : Deficiency) : AirflowCondition :=
  let conditionId := cond.conditionId.getD ("cond_" ++ toString idx)
  let instruction0 := cond.actionableInstruction.getD ""
  let instruction1 :=
    if instruction0 = "" then
      match cond.originalDeficiency with
      | some original => original.actionableInstruction.getD ""
      | none => instruction0
    else instruction0
  let actionableInstruction :=
    if instruction1 = "" then cond.conditionName.getD conditionId
    else instruction1
  { condition :=
      { id := idx
        name := conditionId
        data :=
          { titleField := conditionId
            categoryField := combinedCategory
            descriptionField := actionableInstruction } } }

/-- The `for idx, cond in enumerate(deficient_conditions, 1)` loop of the
transform (transformers.py lines 59-87), with `idx` starting at `start`. -/
def buildAirflowConditions (combinedCategory : String) (start : Nat) :
    List Deficiency → List AirflowCondition
  | [] => []
  | cond :: rest =>
    buildAirflowCondition combinedCategory start cond ::
      buildAirflowConditions combinedCategory (start + 1) rest

/-- `transform_preconditions_to_conditions_ai` (transformers.py lines
11-129).  The wall-clock timestamp and the uuid4 hex fragment used for the
generated `output_destination` are passed in as oracle arguments. -/
def transformPreconditionsToConditionsAi (cloudOutput : PreconditionsOutput)
    (s3PdfPath : String) (timestamp uuidHex : String) :
    Except String AirflowInput :=
  let compartments := cloudOutput.compartments.getD []
  let combinedCategory :=
    if compartments ≠ [] then String.intercalate "; " compartments
    else "General"
  let deficientConditions := chosenDeficiencies cloudOutput
  let conditions := buildAirflowConditions combinedCategory 1 deficientConditions
  match parseS3PathPre s3PdfPath with
  | .error e => .error e
  | .ok (bucket, key) =>
    let outputDestination :=
      bucket ++ "/conditions_output/result_" ++ timestamp ++ "_" ++
        uuidHex ++ ".json"
    .ok
      { conf :=
          { conditions := conditions
            s3PdfPaths := [{ bucket := bucket, key := key }]
            outputDestination := outputDestination } }

/-! ## Guardrails validator (`src/utils/guardrails.py`) -/

/-- Document data from Rack and Stack (`services/rack_and_stack.py` lines
9-16); the validator only reads `document_id`. -/
structure DocumentData where
  documentId : String
  documentType : String := ""
  classificationConfidence : ℚ := 0
  pageCount : Nat := 1
deriving Repr, DecidableEq, Inhabited

/-- Modelled from the spec: `ConditionEvaluationResult` is imported by
`utils/guardrails.py` from `services/conditions_ai.py` but that class is
absent from the repository sources.  The spec data model (section 3,
ConditionEvaluationRecord) gives its shape: condition id and text, a
result in {satisfied, unsatisfied, uncertain}, a confidence in [0,1], the
model used, free-text reasoning and a citation list.  The record has no
`priority` attribute, so the guardrails `hasattr(evaluation, 'priority')`
branch never fires. -/
structure ConditionEvaluationResult where
  conditionId : String
  conditionText : String := ""
  result : String
  confidence : ℚ
  modelUsed : String := ""
  reasoning : String := ""
  citations : List String := []
deriving Repr, DecidableEq, Inhabited

/-- Configuration dictionary of one business rule; the validator only ever
reads the `require_citations` key of the `citation_required` rule. -/
structure RuleConfig where
  requireCitations : Option Bool := none
  threshold : Option ℚ := none
deriving Repr, DecidableEq, Inhabited

/-- `GuardrailsValidator` instance state (guardrails.py lines 17-21):
confidence threshold and cost budget from settings, plus the rule
dictionary loaded from the database (or the hard-coded default set). -/
structure GuardrailsValidator where
  confidenceThreshold : ℚ
  maxCostUsd : ℚ
  businessRules : List (String × RuleConfig)
deriving Repr, DecidableEq, Inhabited

/-- `GuardrailsValidator._check_hallucination` (guardrails.py lines
94-127): citations may be waived by the `citation_required` rule; a
`satisfied` result without citations is a hallucination flag; a citation
naming a document id outside the supplied document set is a hallucination
flag. -/
def checkHallucination (v : GuardrailsValidator)
    (evaluation : ConditionEvaluationResult)
    (documents : List DocumentData) : Bool :=
  let citationRule := ((v.businessRules.lookup "citation_required").getD {})
  if ¬ (citationRule.requireCitations.getD true) then false
  else if evaluation.result = "satisfied" ∧ evaluation.citations = [] then
    true
  else if evaluation.citations ≠ [] ∧
      evaluation.citations.any
        (fun citation => ¬ documents.any (fun doc => doc.documentId = citation)) then
    true
  else false

/-- `GuardrailsValidator._check_business_rules` (guardrails.py lines
129-160).  The high-priority rule guards on `hasattr(evaluation,
'priority')`, which is false for the spec-modelled record, so only the
uncertain-without-reasoning rule can produce a violation. -/
def checkBusinessRules (_v : GuardrailsValidator)
    (evaluation : ConditionEvaluationResult)
    (_documents : List DocumentData) : List String :=
  if evaluation.result = "uncertain" ∧ evaluation.reasoning = "" then
    ["Uncertain result without reasoning"]
  else []

/-- Per-evaluation issue strings gathered by the loop body of
`validate_evaluations` (guardrails.py lines 66-88), in source order:
confidence, hallucination, business rules.  Python formats the confidence
to two decimals; the rational is printed directly here. -/
def evaluationIssues (v : GuardrailsValidator)
    (evaluation : ConditionEvaluationResult)
    (documents : List DocumentData) : List String :=
  (if evaluation.confidence < v.confidenceThreshold then
    ["Low confidence: " ++ toString evaluation.confidence]
  else []) ++
  (if checkHallucination v evaluation documents then
    ["Potential hallucination detected"]
  else []) ++
  checkBusinessRules v evaluation documents

/-- The `for evaluation in evaluations` loop of `validate_evaluations`
(guardrails.py lines 66-90), threading the accumulated validated list,
review flag and issue list. -/
def validateLoop (v : GuardrailsValidator) (documents : List DocumentData) :
    List ConditionEvaluationResult →
    List ConditionEvaluationResult × Bool × List String →
    List ConditionEvaluationResult × Bool × List String
  | [], acc => acc
  | evaluation :: rest, (validated, review, issues) =>
    let validationIssues := evaluationIssues v evaluation documents
    let review := review || !validationIssues.isEmpty
    let issues :=
      if validationIssues.isEmpty then issues
      else
        issues ++ ["Condition " ++ evaluation.conditionId ++ ": " ++
          String.intercalate ", " validationIssues]
    validateLoop v documents rest (validated ++ [evaluation], review, issues)

/-- `GuardrailsValidator.validate_evaluations` (guardrails.py lines
39-92): record a cost-budget issue (without requesting review), then apply
the three per-evaluation rules, appending each evaluation unchanged to the
validated list.  In the source the review flag is set to `True` by each
tripped rule individually; since every tripped rule also contributes an
issue string, this is threaded here as an or with the per-evaluation issue
list being non-empty. -/
def validateEvaluations (v : GuardrailsValidator)
    (evaluations : List ConditionEvaluationResult)
    (documents : List DocumentData) (costUsd : ℚ) :
    List ConditionEvaluationResult × Bool × List String :=
  let costIssues :=
    if costUsd > v.maxCostUsd then
      ["Cost $" ++ toString costUsd ++ " exceeds budget $" ++
        toString v.maxCostUsd]
    else []
  validateLoop v documents evaluations ([], false, costIssues)

/-! ## Linear classify-and-route graph (`src/agent/nodes.py`,
`src/agent/graph.py`)

The LangGraph workflow is embedded as explicit state passing: every node
is a function from the accumulated `AgentState` to `Except String` of a
state delta (`Except.error` models an uncaught Python exception such as a
`KeyError` on a missing state key, `Except.ok` a returned delta
dictionary).  The runner merges each delta into the state and follows the
edges wired in `create_conditions_agent_graph` (graph.py lines 24-86),
which are all unconditional except for the router after
`classify_results`. -/

/-- `execution_metadata` entries read by the store node. -/
structure ExecutionMetadata where
  executionId : Option String := none
  traceId : Option String := none
deriving Repr, DecidableEq, Inhabited

/-- One `node_outputs` entry (`agent/state.py` NodeOutput). -/
structure NodeOutput where
  node : String
  completedAt : String
  outputSummary : Option String := none
deriving Repr, DecidableEq, Inhabited

/-- `summary` dictionary of the final results assembled by
`store_results_node`; the `no_relevant_documents` and `message` keys are
only present in the no-relevant-documents shape. -/
structure FinalSummary where
  totalConditions : Nat
  fulfilled : Nat
  notFulfilled : Nat
  autoApproved : Nat
  requiresReview : Nat
  noRelevantDocuments : Option Bool := none
  message : Option String := none
deriving Repr, DecidableEq, Inhabited

/-- `usage` entry of the final results: the no-relevant-documents shape
passes the raw `api_usage_summary` through, the normal shape builds a
totals dictionary from `condition_analysis`. -/
inductive FinalUsage where
  | raw (u : Option ApiUsageSummary)
  | totals (totalTokens : Nat) (totalCostUsd : ℚ)
      (totalLatencyMs : Nat) (avgLatencyMs : Nat)
deriving Repr, DecidableEq, Inhabited

/-- `final_results` dictionary assembled by `store_results_node`
(nodes.py lines 325-380). -/
structure FinalResults where
  executionId : Option String
  traceId : Option String
  status : String
  timestamp : String
  summary : FinalSummary
  conditions : List FrontendCondition
  usage : FinalUsage
  workflowInfo : Option WorkflowInfo
  note : Option String := none
deriving Repr, DecidableEq, Inhabited

/-- PreConditions request payload; the orchestrator forwards it to the
remote client without inspecting it (only logging reads keys), so it is
modelled as an uninterpreted string dictionary. -/
def PreconditionsInput : Type := List (String × String)

instance : DecidableEq PreconditionsInput := by
  unfold PreconditionsInput
  infer_instance

instance : Inhabited PreconditionsInput := ⟨([] : List (String × String))⟩

/-- `AgentState` (`agent/state.py` lines 25-59): a `total=False` TypedDict,
so every key is optional; `none` models an absent key.  The same type
doubles as the delta dictionaries the nodes return (absent key = key not
in the returned delta). -/
structure AgentState where
  preconditionsInput : Option PreconditionsInput := none
  s3PdfPath : Option String := none
  preconditionsOutput : Option PreconditionsOutput := none
  transformedInput : Option AirflowInput := none
  conditionsAiOutput : Option ConditionsAIOutput := none
  fulfilledConditions : Option (List ProcessedCondition) := none
  notFulfilledConditions : Option (List ProcessedCondition) := none
  finalResults : Option FinalResults := none
  executionMetadata : Option ExecutionMetadata := none
  nodeOutputs : Option (List NodeOutput) := none
  requiresHumanReview : Option Bool := none
  autoApprovedCount : Option Nat := none
  error : Option String := none
  status : Option String := none
deriving Inhabited

/-- LangGraph merge of a node delta into the accumulated state: per key,
the delta wins when it provides the key (the default channel reducer
overwrites). -/
def mergeState (s d : AgentState) : AgentState :=
  { preconditionsInput := mergeOpt d.preconditionsInput s.preconditionsInput
    s3PdfPath := mergeOpt d.s3PdfPath s.s3PdfPath
    preconditionsOutput := mergeOpt d.preconditionsOutput s.preconditionsOutput
    transformedInput := mergeOpt d.transformedInput s.transformedInput
    conditionsAiOutput := mergeOpt d.conditionsAiOutput s.conditionsAiOutput
    fulfilledConditions := mergeOpt d.fulfilledConditions s.fulfilledConditions
    notFulfilledConditions :=
      mergeOpt d.notFulfilledConditions s.notFulfilledConditions
    finalResults := mergeOpt d.finalResults s.finalResults
    executionMetadata := mergeOpt d.executionMetadata s.executionMetadata
    nodeOutputs := mergeOpt d.nodeOutputs s.nodeOutputs
    requiresHumanReview := mergeOpt d.requiresHumanReview s.requiresHumanReview
    autoApprovedCount := mergeOpt d.autoApprovedCount s.autoApprovedCount
    error := mergeOpt d.error s.error
    status := mergeOpt d.status s.status }

/-- Environment oracle for a run: outcomes of the two remote calls
(`Except.error` = the client raised) and the clock and uuid values the
nodes and the transform read. -/
structure AgentEnv where
  preconditionsResult : Except String PreconditionsOutput
  conditionsAiResult : Except String ConditionsAIOutput
  nowIso : String
  nowStamp : String
  uuidHex : String
deriving Inhabited

/-- `call_preconditions_node` (nodes.py lines 23-64): `KeyError` when
`preconditions_input` is absent from the state; a failing remote call is
caught and converted into the `{error, status: failed}` delta. -/
def callPreconditionsNode (env : AgentEnv) (s : AgentState) :
    Except String AgentState :=
  match s.preconditionsInput with
  | none => .error "KeyError: preconditions_input"
  | some _ =>
    match env.preconditionsResult with
    | .ok result =>
      .ok
        { preconditionsOutput := some result
          nodeOutputs := some (s.nodeOutputs.getD [] ++
            [{ node := "call_preconditions"
               completedAt := env.nowIso
               outputSummary := some
                 (toString (result.deficientConditions.getD []).length ++
                   " conditions predicted") }]) }
    | .error e =>
      .ok
        { error := some ("PreConditions API failed: " ++ e)
          status := some "failed" }

/-- `transform_output_node` (nodes.py lines 67-110): the reads of
`preconditions_output` and `s3_pdf_path` sit before the `try` block, so a
missing key raises an uncaught `KeyError`; a `ValueError` from the
transform is caught and converted into the failed delta. -/
def transformOutputNode (env : AgentEnv) (s : AgentState) :
    Except String AgentState :=
  match s.preconditionsOutput with
  | none => .error "KeyError: preconditions_output"
  | some preconditionsOutput =>
    match s.s3PdfPath with
    | none => .error "KeyError: s3_pdf_path"
    | some s3PdfPath =>
      match transformPreconditionsToConditionsAi preconditionsOutput
          s3PdfPath env.nowStamp env.uuidHex with
      | .ok transformed =>
        .ok
          { transformedInput := some transformed
            nodeOutputs := some (s.nodeOutputs.getD [] ++
              [{ node := "transform_output"
                 completedAt := env.nowIso
                 outputSummary := some
                   (toString transformed.conf.conditions.length ++
                     " conditions transformed") }]) }
      | .error e =>
        .ok
          { error := some ("Transformation failed: " ++ e)
            status := some "failed" }

/-- `call_conditions_ai_node` (nodes.py lines 113-161): `KeyError` when
`transformed_input` is absent; a failing remote call is caught and
converted into the failed delta. -/
def callConditionsAiNode (env : AgentEnv) (s : AgentState) :
    Except String AgentState :=
  match s.transformedInput with
  | none => .error "KeyError: transformed_input"
  | some _ =>
    match env.conditionsAiResult with
    | .ok result =>
      .ok
        { conditionsAiOutput := some result
          nodeOutputs := some (s.nodeOutputs.getD [] ++
            [{ node := "call_conditions_ai"
               completedAt := env.nowIso
               outputSummary := some
                 (toString (result.processedConditions.getD []).length ++
                   " conditions evaluated") }]) }
    | .error e =>
      .ok
        { error := some ("Conditions AI failed: " ++ e)
          status := some "failed" }

/-- `classify_results_node` (nodes.py lines 164-224): `KeyError` when
`conditions_ai_output` is absent; the `completed_no_relevant_documents`
status short-circuits to the empty no-review delta; otherwise the pure
extraction runs (it cannot raise). -/
def classifyResultsNode (env : AgentEnv) (s : AgentState) :
    Except String AgentState :=
  match s.conditionsAiOutput with
  | none => .error "KeyError: conditions_ai_output"
  | some conditionsAiOutput =>
    if conditionsAiOutput.processingStatus =
        some "completed_no_relevant_documents" then
      .ok
        { fulfilledConditions := some []
          notFulfilledConditions := some []
          requiresHumanReview := some false
          autoApprovedCount := some 0
          nodeOutputs := some (s.nodeOutputs.getD [] ++
            [{ node := "classify_results"
               completedAt := env.nowIso
               outputSummary := some "No relevant documents found" }]) }
    else
      let (fulfilled, notFulfilled) :=
        extractFulfilledAndNotFulfilled conditionsAiOutput
      .ok
        { fulfilledConditions := some fulfilled
          notFulfilledConditions := some notFulfilled
          requiresHumanReview := some (notFulfilled.length > 0)
          autoApprovedCount := some fulfilled.length
          nodeOutputs := some (s.nodeOutputs.getD [] ++
            [{ node := "classify_results"
               completedAt := env.nowIso
               outputSummary := some
                 (toString fulfilled.length ++ " fulfilled, " ++
                   toString notFulfilled.length ++ " need review") }]) }

/-- `confidence_router_node` (nodes.py lines 227-246): a pure function of
the state; the `requires_human_review` key is read with default `False`. -/
def confidenceRouterNode (s : AgentState) : String :=
  if s.requiresHumanReview.getD false then "human_review" else "auto_approve"

/-- `auto_approve_node` (nodes.py lines 249-274): formats the fulfilled
conditions (the formatted list is computed and discarded by the source)
and records only a node-output entry. -/
def autoApproveNode (env : AgentEnv) (s : AgentState) :
    Except String AgentState :=
  let fulfilledConditions := s.fulfilledConditions.getD []
  let _formatted := fulfilledConditions.map
    (fun cond => formatConditionForFrontend cond true)
  .ok
    { nodeOutputs := some (s.nodeOutputs.getD [] ++
        [{ node := "auto_approve"
           completedAt := env.nowIso
           outputSummary := some
             (toString fulfilledConditions.length ++
               " conditions auto-approved") }]) }

/-- `human_review_node` (nodes.py lines 277-302): formats the not
fulfilled conditions (discarded by the source) and records only a
node-output entry. -/
def humanReviewNode (env : AgentEnv) (s : AgentState) :
    Except String AgentState :=
  let notFulfilledConditions := s.notFulfilledConditions.getD []
  let _formatted := notFulfilledConditions.map
    (fun cond => formatConditionForFrontend cond false)
  .ok
    { nodeOutputs := some (s.nodeOutputs.getD [] ++
        [{ node := "human_review"
           completedAt := env.nowIso
           outputSummary := some
             (toString notFulfilledConditions.length ++
               " conditions need RM review") }]) }

/-- `store_results_node` (nodes.py lines 305-397): every state key is read
with a default, so the node cannot raise; it assembles the final results
envelope (special no-relevant-documents shape or the normal shape) and
always returns `status: completed`. -/
def storeResultsNode (env : AgentEnv) (s : AgentState) :
    Except String AgentState :=
  let fulfilledConditions := s.fulfilledConditions.getD []
  let notFulfilledConditions := s.notFulfilledConditions.getD []
  let conditionsAiOutput := s.conditionsAiOutput.getD {}
  let executionMetadata := s.executionMetadata.getD {}
  let finalResults :=
    if conditionsAiOutput.processingStatus =
        some "completed_no_relevant_documents" then
      { executionId := executionMetadata.executionId
        traceId := executionMetadata.traceId
        status := "completed_no_relevant_documents"
        timestamp := env.nowIso
        summary :=
          { totalConditions := 0
            fulfilled := 0
            notFulfilled := 0
            autoApproved := 0
            requiresReview := 0
            noRelevantDocuments := some true
            message := some
              "No uploaded documents were relevant to the specified conditions" }
        conditions := []
        usage := .raw conditionsAiOutput.apiUsageSummary
        workflowInfo := conditionsAiOutput.workflowInfo
        note := some (conditionsAiOutput.message.getD
          "No relevant documents found") : FinalResults }
    else
      let allConditions :=
        fulfilledConditions.map (fun cond => formatConditionForFrontend cond true)
          ++ notFulfilledConditions.map
            (fun cond => formatConditionForFrontend cond false)
      let conditionAnalysis :=
        ((conditionsAiOutput.apiUsageSummary.getD {}).conditionAnalysis.getD {})
      { executionId := executionMetadata.executionId
        traceId := executionMetadata.traceId
        status := "completed"
        timestamp := env.nowIso
        summary :=
          { totalConditions := allConditions.length
            fulfilled := fulfilledConditions.length
            notFulfilled := notFulfilledConditions.length
            autoApproved := fulfilledConditions.length
            requiresReview := notFulfilledConditions.length }
        conditions := allConditions
        usage := .totals (conditionAnalysis.totalTokens.getD 0)
          (conditionAnalysis.totalCostUsd.getD 0)
          (conditionAnalysis.totalLatencyMs.getD 0)
          (conditionAnalysis.avgLatencyMs.getD 0)
        workflowInfo := conditionsAiOutput.workflowInfo }
  .ok
    { finalResults := some finalResults
      status := some "completed"
      nodeOutputs := some (s.nodeOutputs.getD [] ++
        [{ node := "store_results"
           completedAt := env.nowIso
           outputSummary := some "Results stored successfully" }]) }

/-- The graph runner: executes the nodes along the edges wired in
`create_conditions_agent_graph` (graph.py lines 56-78), merging each
returned delta into the state.  The first component records the name of
every node that began executing, in order; the second is the final state,
or `Except.error` when a node raised an uncaught exception (which aborts
the remaining run and propagates to the caller).  The edges out of
`classify_results` are the sole conditional ones: the router label picks
the branch node; every other edge is unconditional, and in particular no
edge inspects the `error` or `status` keys. -/
def runGraph (env : AgentEnv) (s0 : AgentState) :
    List String × Except String AgentState :=
  match (callPreconditionsNode env s0).map (mergeState s0) with
  | .error e => (["call_preconditions"], .error e)
  | .ok s1 =>
    match (transformOutputNode env s1).map (mergeState s1) with
    | .error e => (["call_preconditions", "transform_output"], .error e)
    | .ok s2 =>
      match (callConditionsAiNode env s2).map (mergeState s2) with
      | .error e =>
        (["call_preconditions", "transform_output", "call_conditions_ai"],
          .error e)
      | .ok s3 =>
        match (classifyResultsNode env s3).map (mergeState s3) with
        | .error e =>
          (["call_preconditions", "transform_output", "call_conditions_ai",
            "classify_results"], .error e)
        | .ok s4 =>
          let branch := confidenceRouterNode s4
          let branchResult :=
            if branch = "human_review" then humanReviewNode env s4
            else autoApproveNode env s4
          match branchResult.map (mergeState s4) with
          | .error e =>
            (["call_preconditions", "transform_output", "call_conditions_ai",
              "classify_results", branch], .error e)
          | .ok s5 =>
            match (storeResultsNode env s5).map (mergeState s5) with
            | .error e =>
              (["call_preconditions", "transform_output",
                "call_conditions_ai", "classify_results", branch,
                "store_results"], .error e)
            | .ok s6 =>
              (["call_preconditions", "transform_output",
                "call_conditions_ai", "classify_results", branch,
                "store_results"], .ok s6)

/-- Initial state built by `run_conditions_agent` (graph.py lines
113-129). -/
def initialAgentState (preconditionsInput : PreconditionsInput)
    (s3PdfPath : String) (executionId : String) : AgentState :=
  { preconditionsInput := some preconditionsInput
    s3PdfPath := some s3PdfPath
    requiresHumanReview := some false
    autoApprovedCount := some 0
    nodeOutputs := some []
    status := some "running"
    executionMetadata := some { executionId := some executionId } }

/-! ## ReWOO planner (`src/agent/rewoo_agent.py`)

The planner parses a JSON response from the planning language model.  JSON
values are embedded as an inductive type; the outcome of Python
`json.loads` on the (fence-stripped) response text is passed in as an
`Option JValue` oracle (`none` = `json.JSONDecodeError`). -/

/-- JSON values, as produced by `json.loads`. -/
inductive JValue where
  | jnull
  | jbool (b : Bool)
  | jnum (n : Int)
  | jstr (s : String)
  | jarr (items : List JValue)
  | jobj (fields : List (String × JValue))
deriving Repr, Inhabited

/-- Python truthiness of a JSON value (`if not tool`, `step_input or {}`,
`step.get("id") or ...`). -/
def JValue.truthy : JValue → Bool
  | .jnull => false
  | .jbool b => b
  | .jnum n => n ≠ 0
  | .jstr s => s ≠ ""
  | .jarr items => !items.isEmpty
  | .jobj fields => !fields.isEmpty

/-- Python `d.get(k)` on a parsed JSON object; `none` both for a missing
key and for a non-object value (on a non-object, Python `.get` raises an
`AttributeError`, which the planner catches together with every other
parse failure, so it collapses to the same fallback outcome). -/
def JValue.getKey : JValue → String → Option JValue
  | .jobj fields, k => fields.lookup k
  | _, _ => none

/-- Python equality between a JSON value and a string literal
(`tool == "call_preconditions_api"`): only a JSON string can be equal. -/
def JValue.eqStr : JValue → String → Bool
  | .jstr s, t => s = t
  | _, _ => false

/-- `dict.setdefault(k, v)` on an object field list: keep the fields when
the key is present, append the pair at the end otherwise. -/
def setdefaultField (fields : List (String × JValue)) (k : String)
    (v : JValue) : List (String × JValue) :=
  if (fields.lookup k).isSome then fields else fields ++ [(k, v)]

/-- One step of the planner output (`ReWOOPlanStep` in
`agent/rewoo_state.py`).  Field values come from parsed JSON, so each is a
`JValue`. -/
structure ReWOOPlanStep where
  id : JValue
  description : JValue
  tool : JValue
  input : JValue
deriving Repr, Inhabited

/-- Planner output (`ReWOOPlan` in `agent/rewoo_state.py`). -/
structure ReWOOPlan where
  summary : Option JValue
  steps : List ReWOOPlanStep
deriving Repr, Inhabited

/-- The tool-specific input defaulting of `_parse_plan_from_llm`
(rewoo_agent.py lines 97-104): for the two known tools an untruthy input
is replaced by `{}` and the required keys are set with `setdefault`;
`none` models the `AttributeError` Python raises when `setdefault` is
called on a truthy non-dict input (caught by the planner and collapsed
into the fallback outcome). -/
def normalizeStepInput (metadata : JValue) (s3PdfPaths : List String)
    (tool stepInput : JValue) : Option JValue :=
  if tool.eqStr "call_preconditions_api" then
    match (if stepInput.truthy then stepInput else .jobj []) with
    | .jobj fields => some (.jobj (setdefaultField fields "metadata" metadata))
    | _ => none
  else if tool.eqStr "call_conditions_ai_api" then
    match (if stepInput.truthy then stepInput else .jobj []) with
    | .jobj fields =>
      some (.jobj (setdefaultField
        (setdefaultField fields "documents"
          (.jarr (s3PdfPaths.map JValue.jstr)))
        "from_step" (.jstr "step_preconditions")))
    | _ => none
  else some stepInput

/-- The normalization loop of `_parse_plan_from_llm` (rewoo_agent.py lines
89-112): enumerate the raw steps from 1, skip non-dict entries and entries
with an untruthy `tool`, default the id to `step_N` and the description to
`""`, and normalize the input per tool.  `none` propagates a raised
`AttributeError`. -/
def normalizePlanSteps (metadata : JValue) (s3PdfPaths : List String) :
    Nat → List JValue → Option (List ReWOOPlanStep)
  | _, [] => some []
  | index, step :: rest =>
    match step with
    | .jobj fields =>
      match (JValue.jobj fields).getKey "tool" with
      | some tool =>
        if tool.truthy then
          match normalizeStepInput metadata s3PdfPaths tool
              (((JValue.jobj fields).getKey "input").getD (.jobj [])) with
          | none => none
          | some stepInput =>
            let stepId :=
              match (JValue.jobj fields).getKey "id" with
              | some i =>
                if i.truthy then i else .jstr ("step_" ++ toString index)
              | none => .jstr ("step_" ++ toString index)
            match normalizePlanSteps metadata s3PdfPaths (index + 1) rest with
            | none => none
            | some tail =>
              some
                ({ id := stepId
                   description :=
                     ((JValue.jobj fields).getKey "description").getD (.jstr "")
                   tool := tool
                   input := stepInput } :: tail)
        else normalizePlanSteps metadata s3PdfPaths (index + 1) rest
      | none => normalizePlanSteps metadata s3PdfPaths (index + 1) rest
    | _ => normalizePlanSteps metadata s3PdfPaths (index + 1) rest

/-- `_parse_plan_from_llm` (rewoo_agent.py lines 67-120).  `rawText` is
the stringified response content and `parsed` the outcome of `json.loads`
on the fence-stripped text (`none` = not JSON).  Returns `none` whenever
the source returns `None` or raises inside the planner try block: empty
response, undecodable JSON, `steps` missing or not an array, every step
dropped, or an `AttributeError` during normalization. -/
def parsePlanFromLLM (rawText : String) (parsed : Option JValue)
    (metadata : JValue) (s3PdfPaths : List String) : Option ReWOOPlan :=
  if rawText = "" then none
  else
    match parsed with
    | none => none
    | some v =>
      match v.getKey "steps" with
      | some (.jarr steps) =>
        match normalizePlanSteps metadata s3PdfPaths 1 steps with
        | none => none
        | some [] => none
        | some normalizedSteps =>
          some { summary := v.getKey "summary", steps := normalizedSteps }
      | _ => none

/-- `_build_default_plan` (rewoo_agent.py lines 18-48): the deterministic
two-step fallback plan - predict with the caller metadata, then evaluate
with the caller documents and an explicit producer reference to the
predict step. -/
def buildDefaultPlan (metadata : JValue) (s3PdfPaths : List String) :
    ReWOOPlan :=
  { summary := some (.jstr
      "Predict conditions using PreConditions then evaluate with Conditions AI.")
    steps :=
      [{ id := .jstr "step_preconditions"
         description := .jstr "Predict deficient conditions using PreConditions."
         tool := .jstr "call_preconditions_api"
         input := .jobj [("metadata", metadata)] },
       { id := .jstr "step_conditions_ai"
         description := .jstr
           "Evaluate predicted conditions against uploaded documents."
         tool := .jstr "call_conditions_ai_api"
         input := .jobj
           [("from_step", .jstr "step_preconditions"),
            ("documents", .jarr (s3PdfPaths.map JValue.jstr))] }] }

/-- The slice of `ReWOOState` the planner reads (rewoo_agent.py lines
126-128): metadata (as its JSON shape), instructions, document paths and
the running status. -/
structure ReWOOPlannerState where
  metadata : JValue := .jobj []
  instructions : Option String := none
  s3PdfPaths : List String := []
  status : Option String := none
deriving Repr, Inhabited

/-- Outcome of the planner language model for one invocation: `none` = no
model configured (`planner_llm` is falsy); `some (.error e)` = the call
raised (caught by the planner); `some (.ok (raw, parsed))` = the call
returned text `raw` whose fence-stripped JSON parse is `parsed`. -/
def PlannerLLMOutcome : Type :=
  Option (Except String (String × Option JValue))

/-- Delta dictionary returned by `planner_node` (rewoo_agent.py lines
163-168).  The returned dictionary has no `error` key; that is recorded
explicitly so theorems can state that no error is surfaced. -/
structure PlannerDelta where
  plan : ReWOOPlan
  planningReasoning : Option String
  stage : String
  status : String
  error : Option String
deriving Repr, Inhabited

/-- `planner_node` (rewoo_agent.py lines 123-168): try the language-model
plan when a model is configured (a raised call is caught and leaves the
plan unset), then fall back to the deterministic default plan whenever no
plan was produced. -/
def plannerNode (llm : PlannerLLMOutcome) (s : ReWOOPlannerState) :
    PlannerDelta :=
  let metadata := s.metadata
  let s3PdfPaths := s.s3PdfPaths
  let planAndReasoning : Option ReWOOPlan × Option String :=
    match llm with
    | none => (none, none)
    | some (.error _) => (none, none)
    | some (.ok (rawText, parsed)) =>
      (parsePlanFromLLM rawText parsed metadata s3PdfPaths, some rawText)
  let withFallback :=
    match planAndReasoning.1 with
    | none => (buildDefaultPlan metadata s3PdfPaths,
        some "Used deterministic fallback plan.")
    | some plan => (plan, planAndReasoning.2)
  { plan := withFallback.1
    planningReasoning := withFallback.2
    stage := "planning_complete"
    status := s.status.getD "running"
    error := none }

/-! ## Lemmas and claim theorems -/

/-- The fulfilled test of the classification loop, as a Boolean
predicate. -/
def isFulfilledStatus (c : ProcessedCondition) : Bool :=
  documentStatusLower c = "fulfilled"

theorem classifyConditions_eq_partition (l : List ProcessedCondition) :
    classifyConditions l =
      (l.filter isFulfilledStatus, l.filter fun c => ! isFulfilledStatus c) := by
  induction l with
  | nil => rfl
  | cons c rest ih =>
    by_cases h : documentStatusLower c = "fulfilled" <;>
      simp [classifyConditions, ih, List.filter_cons, isFulfilledStatus, h]

theorem filter_length_add_filter_not_length {α : Type} (p : α → Bool)
    (l : List α) :
    (l.filter p).length + (l.filter fun a => ! p a).length = l.length := by
  induction l with
  | nil => rfl
  | cons a rest ih =>
    by_cases h : p a <;> simp [List.filter_cons, h] <;> omega

/-- Claim C2: `extract_fulfilled_and_not_fulfilled` partitions the input
`processed_conditions` into two lists whose lengths sum to the input
length; a condition is in the fulfilled list exactly when its (lowered)
status string is `fulfilled`, and every condition with any other status -
the not-fulfilled synonyms as well as unrecognized or missing statuses -
is in the not-fulfilled list.  Membership in one list excludes membership
in the other, so the lists are disjoint. -/
theorem extract_partitions_by_fulfilled_status (out : ConditionsAIOutput) :
    (extractFulfilledAndNotFulfilled out).1.length +
        (extractFulfilledAndNotFulfilled out).2.length =
      (out.processedConditions.getD []).length ∧
    (∀ c, c ∈ (extractFulfilledAndNotFulfilled out).1 ↔
      c ∈ out.processedConditions.getD [] ∧
        (c.documentStatus.getD "").toLower = "fulfilled") ∧
    (∀ c, c ∈ (extractFulfilledAndNotFulfilled out).2 ↔
      c ∈ out.processedConditions.getD [] ∧
        (c.documentStatus.getD "").toLower ≠ "fulfilled") := by
  unfold extractFulfilledAndNotFulfilled
  rw [classifyConditions_eq_partition]
  refine ⟨filter_length_add_filter_not_length _ _, fun c => ?_, fun c => ?_⟩ <;>
    simp [List.mem_filter, isFulfilledStatus, documentStatusLower]

/-- A processed condition whose analysis metadata carries the given
confidence; used for the boundary instances of claim C7. -/
def conditionWithConfidence (q : ℚ) : ProcessedCondition :=
  { analysisMetadata := some { resultConfidence := some q } }

/-- The confidence-tier branch of `format_condition_for_frontend`, read
off the definition. -/
theorem formatConditionForFrontend_color (condition : ProcessedCondition)
    (isFulfilled : Bool) :
    (formatConditionForFrontend condition isFulfilled).confidenceColor =
      if conditionConfidence condition ≥ 8/10 then "green"
      else if conditionConfidence condition ≥ 5/10 then "yellow"
      else "red" := rfl

@[simp] theorem conditionConfidence_conditionWithConfidence (q : ℚ) :
    conditionConfidence (conditionWithConfidence q) = q := rfl

/-- Claim C7: `format_condition_for_frontend` assigns the confidence tier
by the fixed thresholds: confidence at least 0.8 yields `green`, between
0.5 (inclusive) and 0.8 yields `yellow`, below 0.5 yields `red`; in
particular confidence exactly 0.8 is `green`, exactly 0.5 is `yellow`,
and 0.4999 is `red`. -/
theorem format_condition_confidence_tiers (condition : ProcessedCondition)
    (isFulfilled : Bool) :
    (8/10 ≤ conditionConfidence condition →
      (formatConditionForFrontend condition isFulfilled).confidenceColor =
        "green") ∧
    (conditionConfidence condition < 8/10 →
      5/10 ≤ conditionConfidence condition →
      (formatConditionForFrontend condition isFulfilled).confidenceColor =
        "yellow") ∧
    (conditionConfidence condition < 5/10 →
      (formatConditionForFrontend condition isFulfilled).confidenceColor =
        "red") ∧
    (formatConditionForFrontend (conditionWithConfidence (8/10))
      isFulfilled).confidenceColor = "green" ∧
    (formatConditionForFrontend (conditionWithConfidence (5/10))
      isFulfilled).confidenceColor = "yellow" ∧
    (formatConditionForFrontend (conditionWithConfidence (4999/10000))
      isFulfilled).confidenceColor = "red" := by
  refine ⟨fun h1 => ?_, fun h1 h2 => ?_, fun h1 => ?_, ?_, ?_, ?_⟩ <;>
    rw [formatConditionForFrontend_color]
  · rw [if_pos h1]
  · rw [if_neg (by simpa using not_le.mpr h1), if_pos h2]
  · rw [if_neg (by simpa using not_le.mpr (lt_trans h1 (by norm_num))),
      if_neg (by simpa using not_le.mpr h1)]
  · rw [conditionConfidence_conditionWithConfidence]
    norm_num
  · rw [conditionConfidence_conditionWithConfidence]
    norm_num
  · rw [conditionConfidence_conditionWithConfidence]
    norm_num

/-- Witness for claim C7 at the three boundary confidences, discharging
the tier hypotheses at 0.8, 0.5 and 0.4999. -/
theorem format_condition_confidence_tiers_witness :
    (formatConditionForFrontend (conditionWithConfidence (8/10))
      true).confidenceColor = "green" ∧
    (formatConditionForFrontend (conditionWithConfidence (5/10))
      true).confidenceColor = "yellow" ∧
    (formatConditionForFrontend (conditionWithConfidence (4999/10000))
      true).confidenceColor = "red" :=
  ⟨(format_condition_confidence_tiers (conditionWithConfidence (8/10))
      true).1 (by norm_num),
   (format_condition_confidence_tiers (conditionWithConfidence (5/10))
      true).2.1 (by norm_num) (by norm_num),
   (format_condition_confidence_tiers (conditionWithConfidence (4999/10000))
      true).2.2.1 (by norm_num)⟩

theorem validateLoop_validated_append (v : GuardrailsValidator)
    (documents : List DocumentData) (l : List ConditionEvaluationResult)
    (acc : List ConditionEvaluationResult × Bool × List String) :
    (validateLoop v documents l acc).1 = acc.1 ++ l := by
  induction l generalizing acc with
  | nil => simp [validateLoop]
  | cons e rest ih =>
    obtain ⟨validated, review, issues⟩ := acc
    simp [validateLoop, ih]

/-- Claim C8: `validate_evaluations` returns the input evaluations
unchanged and in order as its validated list - the validator only
annotates issues and aggregates the review flag. -/
theorem validate_evaluations_passthrough (v : GuardrailsValidator)
    (evaluations : List ConditionEvaluationResult)
    (documents : List DocumentData) (costUsd : ℚ) :
    (validateEvaluations v evaluations documents costUsd).1 = evaluations := by
  unfold validateEvaluations
  rw [validateLoop_validated_append]
  simp

/-- Claim C10: the router reads `requires_human_review` with default
`False`, so a state in which the key is absent is routed to
`auto_approve`. -/
theorem router_missing_review_flag_auto_approves (s : AgentState)
    (h : s.requiresHumanReview = none) :
    confidenceRouterNode s = "auto_approve" := by
  simp [confidenceRouterNode, h]

/-- Witness for claim C10: the empty state (no key written) routes to
auto-approval. -/
theorem router_missing_review_flag_auto_approves_witness :
    confidenceRouterNode {} = "auto_approve" :=
  router_missing_review_flag_auto_approves {} rfl

theorem splitFirstSlash_eq_none_iff (l : List Char) :
    splitFirstSlash l = none ↔ '/' ∉ l := by
  induction l with
  | nil => simp [splitFirstSlash]
  | cons c rest ih =>
    by_cases h : c = '/'
    · simp [splitFirstSlash, h]
    · have hstep : splitFirstSlash (c :: rest) = none ↔
          splitFirstSlash rest = none := by
        simp only [splitFirstSlash, if_neg h]
        cases hs : splitFirstSlash rest with
        | none => simp
        | some p => simp
      rw [hstep, ih]
      simp [List.mem_cons, Ne.symm h]

theorem splitFirstSlash_first (before after : List Char)
    (h : '/' ∉ before) :
    splitFirstSlash (before ++ '/' :: after) = some (before, after) := by
  induction before with
  | nil => simp [splitFirstSlash]
  | cons c rest ih =>
    have hc : c ≠ '/' := fun hc => h (hc ▸ List.mem_cons_self c rest)
    have hrest : '/' ∉ rest := fun hm => h (List.mem_cons_of_mem c hm)
    simp [splitFirstSlash, hc, ih hrest]

theorem startsWithS3Scheme_append (rest : List Char) :
    startsWithS3Scheme (s3SchemeChars ++ rest) = true := rfl

theorem drop_s3Scheme (rest : List Char) :
    (s3SchemeChars ++ rest).drop 5 = rest := rfl

theorem startsWithS3Scheme_of_no_slash (l : List Char) (h : '/' ∉ l) :
    startsWithS3Scheme l = false := by
  simp only [startsWithS3Scheme, decide_eq_false_iff_not]
  intro he
  exact h (List.take_subset 5 l (he ▸ (by decide : '/' ∈ s3SchemeChars)))

/-- Claim C6: the shared path-parsing rule of both transforms accepts the
URI-prefixed and the bare bucket/key forms, splits on the first `/` only
(so keys may contain further `/`), and raises a validation error on a path
with no `/` or one that is empty after stripping the prefix.  Stated for
the concrete spec examples, for every slash-free path, and for every
bucket (slash-free) and key (arbitrary) in both forms. -/
theorem s3_path_parsing_rule :
    parseS3PathPre "s3://bucket/a/b.pdf" = .ok ("bucket", "a/b.pdf") ∧
    parseS3PathPre "bucket/a/b.pdf" = .ok ("bucket", "a/b.pdf") ∧
    parseS3PathMeta "s3://bucket/a/b.pdf" = .ok ("bucket", "a/b.pdf") ∧
    parseS3PathMeta "bucket/a/b.pdf" = .ok ("bucket", "a/b.pdf") ∧
    (∃ e, parseS3PathPre "s3://" = .error e) ∧
    (∃ e, parseS3PathMeta "s3://" = .error e) ∧
    (∀ l : List Char, '/' ∉ l →
      (∃ e, parseS3PathPreChars l = .error e) ∧
      ∃ e, parseS3PathMetaChars l = .error e) ∧
    (∀ bucket key : List Char, '/' ∉ bucket →
      parseS3PathPreChars (s3SchemeChars ++ (bucket ++ '/' :: key)) =
        .ok (bucket, key) ∧
      parseS3PathMetaChars (s3SchemeChars ++ (bucket ++ '/' :: key)) =
        .ok (bucket, key)) ∧
    (∀ bucket key : List Char, '/' ∉ bucket →
      startsWithS3Scheme (bucket ++ '/' :: key) = false →
      parseS3PathPreChars (bucket ++ '/' :: key) = .ok (bucket, key) ∧
      parseS3PathMetaChars (bucket ++ '/' :: key) = .ok (bucket, key)) := by
  refine ⟨rfl, rfl, rfl, rfl, ⟨_, rfl⟩, ⟨_, rfl⟩, fun l h => ?_,
    fun bucket key h => ?_, fun bucket key h hsw => ?_⟩
  · have hsw := startsWithS3Scheme_of_no_slash l h
    have hsp := (splitFirstSlash_eq_none_iff l).mpr h
    constructor
    · simp only [parseS3PathPreChars, hsw, Bool.false_eq_true, if_false, hsp]
      exact ⟨_, rfl⟩
    · simp only [parseS3PathMetaChars, hsw, Bool.false_eq_true, if_false, hsp]
      exact ⟨_, rfl⟩
  · have hsp := splitFirstSlash_first bucket key h
    constructor
    · simp [parseS3PathPreChars, startsWithS3Scheme_append, drop_s3Scheme, hsp]
    · simp [parseS3PathMetaChars, startsWithS3Scheme_append, drop_s3Scheme, hsp]
  · have hsp := splitFirstSlash_first bucket key h
    constructor
    · simp [parseS3PathPreChars, hsw, hsp]
    · simp [parseS3PathMetaChars, hsw, hsp]

/-- Witness for claim C6: the universally quantified parts applied at a
slash-free path and at a bucket/key pair whose key itself contains a
slash. -/
theorem s3_path_parsing_rule_witness :
    (∃ e, parseS3PathPreChars ['d', 'o', 'c'] = .error e) ∧
    parseS3PathPreChars
        (s3SchemeChars ++ (['b', 'k', 't'] ++ '/' :: ['a', '/', 'c'])) =
      .ok (['b', 'k', 't'], ['a', '/', 'c']) :=
  ⟨(s3_path_parsing_rule.2.2.2.2.2.2.1 ['d', 'o', 'c'] (by decide)).1,
   (s3_path_parsing_rule.2.2.2.2.2.2.2.1 ['b', 'k', 't'] ['a', '/', 'c']
      (by decide)).1⟩

theorem buildAirflowConditions_length (combinedCategory : String)
    (start : Nat) (l : List Deficiency) :
    (buildAirflowConditions combinedCategory start l).length = l.length := by
  induction l generalizing start with
  | nil => rfl
  | cons c rest ih => simp [buildAirflowConditions, ih]

theorem buildAirflowConditions_id (combinedCategory : String) (start : Nat)
    (l : List Deficiency) (i : Nat)
    (h : i < (buildAirflowConditions combinedCategory start l).length) :
    ((buildAirflowConditions combinedCategory start l).get
      ⟨i, h⟩).condition.id = start + i := by
  induction l generalizing start i with
  | nil => simp [buildAirflowConditions] at h
  | cons c rest ih =>
    cases i with
    | zero => simp [buildAirflowConditions, buildAirflowCondition]
    | succ n =>
      have hn : n < (buildAirflowConditions combinedCategory (start + 1)
          rest).length := by
        have hlen := h
        rw [buildAirflowConditions] at hlen
        simp at hlen
        omega
      have hrec := ih (start + 1) n hn
      calc ((buildAirflowConditions combinedCategory start
            (c :: rest)).get ⟨n + 1, h⟩).condition.id
          = ((buildAirflowConditions combinedCategory (start + 1)
              rest).get ⟨n, hn⟩).condition.id := rfl
        _ = (start + 1) + n := hrec
        _ = start + (n + 1) := by omega

/-- Claim C5: for a prediction output whose deficiencies are taken from
`final_results.top_n` when that list is non-empty and from
`deficient_conditions` otherwise (`chosenDeficiencies`), a successful
transform yields exactly one evaluation condition entry per deficiency,
and their ordinal `id` fields are 1..N in list order. -/
theorem transform_yields_ordinal_condition_ids
    (cloudOutput : PreconditionsOutput)
    (s3PdfPath timestamp uuidHex : String) (out : AirflowInput)
    (h : transformPreconditionsToConditionsAi cloudOutput s3PdfPath
      timestamp uuidHex = .ok out) :
    out.conf.conditions.length = (chosenDeficiencies cloudOutput).length ∧
    ∀ i (hi : i < out.conf.conditions.length),
      (out.conf.conditions.get ⟨i, hi⟩).condition.id = i + 1 := by
  unfold transformPreconditionsToConditionsAi at h
  cases hp : parseS3PathPre s3PdfPath with
  | error e => rw [hp] at h; exact absurd h (by simp)
  | ok pair =>
    obtain ⟨bucket, key⟩ := pair
    rw [hp] at h
    simp only [Except.ok.injEq] at h
    subst h
    refine ⟨?_, fun i hi => ?_⟩
    · exact buildAirflowConditions_length _ 1 _
    · have := buildAirflowConditions_id
        (if cloudOutput.compartments.getD [] ≠ [] then
          String.intercalate "; " (cloudOutput.compartments.getD [])
        else "General") 1 (chosenDeficiencies cloudOutput) i (by
          simpa using hi)
      simpa [Nat.add_comm] using this

/-- Concrete prediction output for the claim C5 witness: two scored
deficiencies in `final_results.top_n`. -/
def c5Cloud : PreconditionsOutput :=
  { finalResults := some { topN := some [{}, {}] } }

/-- The transform output on `c5Cloud` (the transform succeeds, so the
default is never used). -/
def c5Out : AirflowInput :=
  (transformPreconditionsToConditionsAi c5Cloud "bkt/doc.pdf" "20250101"
    "abcd1234").toOption.getD default

/-- Witness for claim C5: the transform of two deficiencies succeeds and
yields two conditions with ordinal ids. -/
theorem transform_yields_ordinal_condition_ids_witness :
    transformPreconditionsToConditionsAi c5Cloud "bkt/doc.pdf" "20250101"
        "abcd1234" = .ok c5Out ∧
    (c5Out.conf.conditions.length = (chosenDeficiencies c5Cloud).length ∧
      ∀ i (hi : i < c5Out.conf.conditions.length),
        (c5Out.conf.conditions.get ⟨i, hi⟩).condition.id = i + 1) :=
  ⟨rfl, transform_yields_ordinal_condition_ids c5Cloud "bkt/doc.pdf"
    "20250101" "abcd1234" c5Out rfl⟩

theorem validateLoop_no_issues (v : GuardrailsValidator)
    (documents : List DocumentData) (l : List ConditionEvaluationResult)
    (validated : List ConditionEvaluationResult) (review : Bool)
    (issues : List String)
    (h : ∀ e ∈ l, evaluationIssues v e documents = []) :
    (validateLoop v documents l (validated, review, issues)).2.1 = review ∧
    (validateLoop v documents l (validated, review, issues)).2.2 = issues := by
  induction l generalizing validated with
  | nil => simp [validateLoop]
  | cons e rest ih =>
    have he : evaluationIssues v e documents = [] :=
      h e (List.mem_cons_self e rest)
    have hrest : ∀ x ∈ rest, evaluationIssues v x documents = [] :=
      fun x hx => h x (List.mem_cons_of_mem e hx)
    simpa [validateLoop, he] using ih (validated ++ [e]) hrest

/-- Claim C4: when the aggregate cost exceeds the configured budget, an
issue string is recorded, but the cost overage alone never requests human
review: on any input where the cost rule trips and no per-evaluation rule
(confidence, hallucination, business rule) trips on any evaluation, the
validator returns `requires_human_review = False` with a non-empty issue
list. -/
theorem cost_overage_is_informational_only (v : GuardrailsValidator)
    (evaluations : List ConditionEvaluationResult)
    (documents : List DocumentData) (costUsd : ℚ)
    (hcost : costUsd > v.maxCostUsd)
    (hclean : ∀ e ∈ evaluations,
      ¬ (e.confidence < v.confidenceThreshold) ∧
      checkHallucination v e documents = false ∧
      checkBusinessRules v e documents = []) :
    (validateEvaluations v evaluations documents costUsd).2.1 = false ∧
    (validateEvaluations v evaluations documents costUsd).2.2 ≠ [] := by
  have hiss : ∀ e ∈ evaluations, evaluationIssues v e documents = [] := by
    intro e he
    obtain ⟨h1, h2, h3⟩ := hclean e he
    simp [evaluationIssues, h1, h2, h3]
  unfold validateEvaluations
  simp only [if_pos hcost]
  obtain ⟨hr, hi⟩ := validateLoop_no_issues v documents evaluations [] false
    ["Cost $" ++ toString costUsd ++ " exceeds budget $" ++
      toString v.maxCostUsd] hiss
  rw [hr, hi]
  simp

/-- Validator state for the claim C4 witness: the settings defaults
(confidence threshold 0.7, cost budget 5 USD) with no database rules. -/
def c4Validator : GuardrailsValidator :=
  { confidenceThreshold := 7/10, maxCostUsd := 5, businessRules := [] }

/-- A clean evaluation for the claim C4 witness: high confidence, a
satisfied result with a citation resolving to a supplied document, and a
non-empty reasoning text. -/
def c4Evaluation : ConditionEvaluationResult :=
  { conditionId := "cond_1", result := "satisfied", confidence := 9/10,
    reasoning := "documented", citations := ["doc1"] }

/-- The single supplied document of the claim C4 witness. -/
def c4Document : DocumentData := { documentId := "doc1" }

/-- Witness for claim C4: cost 6 USD against budget 5 USD with one clean
evaluation yields no review request but a non-empty issue list. -/
theorem cost_overage_is_informational_only_witness :
    (validateEvaluations c4Validator [c4Evaluation] [c4Document] 6).2.1 =
      false ∧
    (validateEvaluations c4Validator [c4Evaluation] [c4Document] 6).2.2 ≠
      [] :=
  cost_overage_is_informational_only c4Validator [c4Evaluation] [c4Document]
    6 (by norm_num [c4Validator])
    (by
      intro e he
      simp only [List.mem_singleton] at he
      subst he
      refine ⟨by norm_num [c4Validator, c4Evaluation], by decide, by decide⟩)

/-- Claim C3: when the evaluation output carries processing status
`completed_no_relevant_documents`, the classify node short-circuits to
empty fulfilled and not-fulfilled lists with `requires_human_review =
False` (and no error or failure status in its delta), and the store node
produces a final-results summary with `no_relevant_documents: true` and
zero total conditions while marking the run `completed` - a valid
terminal business outcome, not an error. -/
theorem no_relevant_documents_short_circuits (env : AgentEnv)
    (s : AgentState) (out : ConditionsAIOutput)
    (hout : s.conditionsAiOutput = some out)
    (hstatus : out.processingStatus = some "completed_no_relevant_documents") :
    (∃ d, classifyResultsNode env s = .ok d ∧
      d.fulfilledConditions = some [] ∧
      d.notFulfilledConditions = some [] ∧
      d.requiresHumanReview = some false ∧
      d.autoApprovedCount = some 0 ∧
      d.error = none ∧ d.status = none) ∧
    (∃ d fr, storeResultsNode env s = .ok d ∧
      d.finalResults = some fr ∧
      fr.summary.noRelevantDocuments = some true ∧
      fr.summary.totalConditions = 0 ∧
      d.status = some "completed" ∧
      d.error = none) := by
  constructor
  · refine ⟨{ fulfilledConditions := some []
              notFulfilledConditions := some []
              requiresHumanReview := some false
              autoApprovedCount := some 0
              nodeOutputs := some (s.nodeOutputs.getD [] ++
                [{ node := "classify_results"
                   completedAt := env.nowIso
                   outputSummary := some "No relevant documents found" }]) },
      ?_, rfl, rfl, rfl, rfl, rfl, rfl⟩
    simp [classifyResultsNode, hout, hstatus]
  · refine ⟨{ finalResults := some
                { executionId := (s.executionMetadata.getD {}).executionId
                  traceId := (s.executionMetadata.getD {}).traceId
                  status := "completed_no_relevant_documents"
                  timestamp := env.nowIso
                  summary :=
                    { totalConditions := 0
                      fulfilled := 0
                      notFulfilled := 0
                      autoApproved := 0
                      requiresReview := 0
                      noRelevantDocuments := some true
                      message := some
                        "No uploaded documents were relevant to the specified conditions" }
                  conditions := []
                  usage := .raw out.apiUsageSummary
                  workflowInfo := out.workflowInfo
                  note := some (out.message.getD "No relevant documents found") }
              status := some "completed"
              nodeOutputs := some (s.nodeOutputs.getD [] ++
                [{ node := "store_results"
                   completedAt := env.nowIso
                   outputSummary := some "Results stored successfully" }]) },
      { executionId := (s.executionMetadata.getD {}).executionId
        traceId := (s.executionMetadata.getD {}).traceId
        status := "completed_no_relevant_documents"
        timestamp := env.nowIso
        summary :=
          { totalConditions := 0
            fulfilled := 0
            notFulfilled := 0
            autoApproved := 0
            requiresReview := 0
            noRelevantDocuments := some true
            message := some
              "No uploaded documents were relevant to the specified conditions" }
        conditions := []
        usage := .raw out.apiUsageSummary
        workflowInfo := out.workflowInfo
        note := some (out.message.getD "No relevant documents found") },
      ?_, rfl, rfl, rfl, rfl, rfl⟩
    simp [storeResultsNode, hout, hstatus]

/-- Environment for the claim C3 witness. -/
def c3Env : AgentEnv :=
  { preconditionsResult := .ok {}
    conditionsAiResult :=
      .ok { processingStatus := some "completed_no_relevant_documents" }
    nowIso := "2025-01-01T00:00:00"
    nowStamp := "20250101_000000"
    uuidHex := "deadbeef" }

/-- State for the claim C3 witness: the evaluation output reports
`completed_no_relevant_documents`. -/
def c3State : AgentState :=
  { conditionsAiOutput :=
      some { processingStatus := some "completed_no_relevant_documents" } }

/-- Witness for claim C3 at the concrete state and environment. -/
theorem no_relevant_documents_short_circuits_witness :
    (∃ d, classifyResultsNode c3Env c3State = .ok d ∧
      d.fulfilledConditions = some [] ∧
      d.notFulfilledConditions = some [] ∧
      d.requiresHumanReview = some false ∧
      d.autoApprovedCount = some 0 ∧
      d.error = none ∧ d.status = none) ∧
    (∃ d fr, storeResultsNode c3Env c3State = .ok d ∧
      d.finalResults = some fr ∧
      fr.summary.noRelevantDocuments = some true ∧
      fr.summary.totalConditions = 0 ∧
      d.status = some "completed" ∧
      d.error = none) :=
  no_relevant_documents_short_circuits c3Env c3State
    { processingStatus := some "completed_no_relevant_documents" } rfl rfl

theorem parsePlanFromLLM_some_reduce (rawText : String) (v : JValue)
    (metadata : JValue) (s3PdfPaths : List String) (hraw : rawText ≠ "") :
    parsePlanFromLLM rawText (some v) metadata s3PdfPaths =
      (match v.getKey "steps" with
       | some (.jarr steps) =>
         match normalizePlanSteps metadata s3PdfPaths 1 steps with
         | none => none
         | some [] => none
         | some normalizedSteps =>
           some { summary := v.getKey "summary", steps := normalizedSteps }
       | _ => none) := by
  unfold parsePlanFromLLM
  rw [if_neg hraw]

/-- The fallback-triggering situations named by the spec for the planner:
no language model configured, a response that is not JSON, or a JSON
response lacking a `steps` array. -/
def plannerFallbackTrigger (llm : PlannerLLMOutcome) : Prop :=
  llm = none ∨
  (∃ raw, llm = some (.ok (raw, none))) ∨
  (∃ raw v, llm = some (.ok (raw, some v)) ∧
    ∀ items, v.getKey "steps" ≠ some (.jarr items))

/-- Claim C9: whenever the language-model response is malformed (not
JSON, or lacking a valid steps array) or no model is configured, the
planner produces exactly the deterministic fallback plan - two steps,
predict then evaluate, with the evaluate step referencing the predict step
as producer via `from_step` and a populated summary - and surfaces no
error to the caller. -/
theorem planner_falls_back_deterministically (llm : PlannerLLMOutcome)
    (s : ReWOOPlannerState) (h : plannerFallbackTrigger llm) :
    (plannerNode llm s).plan = buildDefaultPlan s.metadata s.s3PdfPaths ∧
    (plannerNode llm s).plan.steps.length = 2 ∧
    (∃ predictStep evalStep,
      (plannerNode llm s).plan.steps = [predictStep, evalStep] ∧
      predictStep.tool = .jstr "call_preconditions_api" ∧
      evalStep.tool = .jstr "call_conditions_ai_api" ∧
      evalStep.input.getKey "from_step" = some (.jstr "step_preconditions")) ∧
    (plannerNode llm s).plan.summary = some (.jstr
      "Predict conditions using PreConditions then evaluate with Conditions AI.") ∧
    (plannerNode llm s).error = none := by
  have hplan : (plannerNode llm s).plan =
      buildDefaultPlan s.metadata s.s3PdfPaths ∧
      (plannerNode llm s).error = none := by
    rcases h with h | ⟨raw, h⟩ | ⟨raw, v, h, hsteps⟩
    · subst h; exact ⟨rfl, rfl⟩
    · subst h
      by_cases hraw : raw = "" <;>
        simp [plannerNode, parsePlanFromLLM, hraw]
    · subst h
      by_cases hraw : raw = ""
      · simp [plannerNode, parsePlanFromLLM, hraw]
      · have hred : parsePlanFromLLM raw (some v) s.metadata s.s3PdfPaths =
            none := by
          rw [parsePlanFromLLM_some_reduce raw v s.metadata s.s3PdfPaths hraw]
          cases hk : v.getKey "steps" with
          | none => rfl
          | some w =>
            cases w with
            | jarr items => exact absurd hk (hsteps items)
            | jnull => rfl
            | jbool b => rfl
            | jnum n => rfl
            | jstr t => rfl
            | jobj fields => rfl
        simp [plannerNode, hred]
  refine ⟨hplan.1, ?_, ?_, ?_, hplan.2⟩
  · rw [hplan.1]; rfl
  · rw [hplan.1]
    exact ⟨_, _, rfl, rfl, rfl, rfl⟩
  · rw [hplan.1]; rfl

/-- Witness for claim C9: a non-JSON model response triggers the
deterministic fallback. -/
theorem planner_falls_back_deterministically_witness :
    ((plannerNode (some (.ok ("not json", none))) {}).plan =
      buildDefaultPlan (ReWOOPlannerState.metadata {})
        (ReWOOPlannerState.s3PdfPaths {}) ∧
    (plannerNode (some (.ok ("not json", none))) {}).plan.steps.length = 2 ∧
    (∃ predictStep evalStep,
      (plannerNode (some (.ok ("not json", none))) {}).plan.steps =
        [predictStep, evalStep] ∧
      predictStep.tool = .jstr "call_preconditions_api" ∧
      evalStep.tool = .jstr "call_conditions_ai_api" ∧
      evalStep.input.getKey "from_step" = some (.jstr "step_preconditions")) ∧
    (plannerNode (some (.ok ("not json", none))) {}).plan.summary = some (.jstr
      "Predict conditions using PreConditions then evaluate with Conditions AI.") ∧
    (plannerNode (some (.ok ("not json", none))) {}).error = none) :=
  planner_falls_back_deterministically (some (.ok ("not json", none))) {}
    (Or.inr (Or.inl ⟨"not json", rfl⟩))

/-- Environment for the claim C1 counterexample: the PreConditions remote
call fails with an HTTP transport error; the evaluation client would
succeed but is never reached. -/
def c1Env : AgentEnv :=
  { preconditionsResult := .error "HTTP 500"
    conditionsAiResult := .ok {}
    nowIso := "2025-01-01T00:00:00"
    nowStamp := "20250101_000000"
    uuidHex := "cafe0123" }

/-- Initial state for the claim C1 counterexample, exactly as
`run_conditions_agent` builds it. -/
def c1State : AgentState :=
  initialAgentState ([] : PreconditionsInput) "bucket/doc.pdf" "exec-1"

/-- Claim C1 counterexample: on a run whose predict step recovers from a
remote failure by returning the `{error, status: failed}` delta, the graph
does not halt: the next node (`transform_output`) also begins executing -
it appears in the execution trace - and the run then aborts with an
uncaught `KeyError` on the absent `preconditions_output` key, so no final
state (in particular none carrying the error and status `failed`) is
produced. -/
theorem failed_delta_halts_graph_counterexample :
    runGraph c1Env c1State =
      (["call_preconditions", "transform_output"],
        .error "KeyError: preconditions_output") := rfl

/-- Claim C1 as amended: in the linear classify-and-route graph every edge
is unconditional, so a step that returns a `{error, status: failed}` delta
does not halt the graph.  Whenever the predict step fails this way on a
fresh run (the state holds a `preconditions_input` but no
`preconditions_output` yet), the transform step still executes next, reads
the absent `preconditions_output` key, and aborts the whole run with an
uncaught `KeyError` - the caller gets a propagated exception, not a final
state carrying the error and status `failed`. -/
theorem failed_delta_does_not_halt_graph (env : AgentEnv) (s0 : AgentState)
    (preconditionsInput : PreconditionsInput) (msg : String)
    (hin : s0.preconditionsInput = some preconditionsInput)
    (hout : s0.preconditionsOutput = none)
    (hfail : env.preconditionsResult = .error msg) :
    runGraph env s0 =
      (["call_preconditions", "transform_output"],
        .error "KeyError: preconditions_output") := by
  have hnode : callPreconditionsNode env s0 =
      .ok { error := some ("PreConditions API failed: " ++ msg)
            status := some "failed" } := by
    unfold callPreconditionsNode
    rw [hin, hfail]
  have hmerged : (mergeState s0
      { error := some ("PreConditions API failed: " ++ msg)
        status := some "failed" }).preconditionsOutput = none := by
    simp [mergeState, mergeOpt, hout]
  have htrans : transformOutputNode env (mergeState s0
      { error := some ("PreConditions API failed: " ++ msg)
        status := some "failed" }) =
      .error "KeyError: preconditions_output" := by
    unfold transformOutputNode
    rw [hmerged]
  simp [runGraph, hnode, htrans, Except.map]

/-- Witness for the amended claim C1, at a distinct environment whose
predict call fails with an auth error. -/
theorem failed_delta_does_not_halt_graph_witness :
    runGraph
      { preconditionsResult := .error "401 Unauthorized"
        conditionsAiResult := .ok {}
        nowIso := "2025-02-02T00:00:00"
        nowStamp := "20250202_000000"
        uuidHex := "beef4567" }
      (initialAgentState ([] : PreconditionsInput) "bkt/file.pdf" "exec-2") =
      (["call_preconditions", "transform_output"],
        .error "KeyError: preconditions_output") :=
  failed_delta_does_not_halt_graph
    { preconditionsResult := .error "401 Unauthorized"
      conditionsAiResult := .ok {}
      nowIso := "2025-02-02T00:00:00"
      nowStamp := "20250202_000000"
      uuidHex := "beef4567" }
    (initialAgentState ([] : PreconditionsInput) "bkt/file.pdf" "exec-2")
    ([] : PreconditionsInput) "401 Unauthorized" rfl rfl rfl
